import Mathlib

/-!
Shallow embedding of the `secretstore-primitives` crate: the data model of a
distributed threshold key-management service (server keys, document keys,
requester identities, key-server-set snapshots) together with the key-server
operations described by its specification.

The crate under verification is a primitives crate: `src/` holds the concrete
data types (`requester.rs`, `key_storage.rs`, `key_server_set.rs`, the artifact
structs of `key_server.rs`, `service.rs`) and the trait declarations of the key
server, while the session implementations behind those traits and the `error`
module (declared in `lib.rs`) are not part of `src/`.  Concrete data types are
embedded directly; the missing operations are modelled from the specification,
each such definition carrying a doc comment starting `Modelled from the spec:`.

Machine-sized values (H256 hashes, EC points and scalars, addresses) are
modelled as `Nat`.  The elliptic curve is an explicit parameter of the spec
("this spec does not define a specific elliptic curve"), so the EC group is
modelled as the additive monoid of `Nat` with generator `1`: scalar
multiplication is `*`, point addition is `+`.
-/

namespace SecretStore

/-- Server key id (`ServerKeyId = H256` in `lib.rs`), modelled as `Nat`. -/
abbrev ServerKeyId := Nat

/-- 256-bit hash (`ethereum_types::H256`), modelled as `Nat`. -/
abbrev H256 := Nat

/-- EC public key / point (`parity_crypto::publickey::Public`), modelled as `Nat`
in the cyclic-group model (the curve is a parameter of the spec). -/
abbrev Public := Nat

/-- 160-bit account address (`parity_crypto::publickey::Address`), modelled as `Nat`. -/
abbrev Address := Nat

/-- EC secret scalar (`parity_crypto::publickey::Secret`), modelled as `Nat`. -/
abbrev Secret := Nat

/-- Key server id (`KeyServerId = NodeId = Public` in `lib.rs`). -/
abbrev KeyServerId := Nat

/-- Key server public key (`KeyServerPublic`), same carrier as `Public`. -/
abbrev KeyServerPublic := Nat

/-- Network address of a node (`std::net::SocketAddr`), modelled as `Nat`. -/
abbrev SocketAddr := Nat

/-- Migration id (`MigrationId = H256` in `key_server_set.rs`). -/
abbrev MigrationId := Nat

/-- The EC generation point `G` in the cyclic-group model: scalar `k` yields
point `k * genPoint = k`. -/
def genPoint : Public := 1

/-- Model of the external `parity_crypto::publickey::public_to_address`
(keccak of the public key truncated to 160 bits): the keccak step is not
modelled, the truncation to 160 bits is kept. -/
def public_to_address (p : Public) : Address := p % 2 ^ 160

/-- Modelled from the spec: the error kinds of the `error` module, which is
declared in `lib.rs` (`pub mod error`) but absent from `src/`; the
constructors are the error kinds enumerated in the ERROR HANDLING DESIGN
section of the spec. -/
inductive Error where
  | KeyNotFound
  | DuplicateKey
  | DocumentKeyAlreadySet
  | AccessDenied
  | InvalidSignature
  | InsufficientNodes
  | ConsensusUnreachable
  | UnsupportedThreshold
  | SessionAlreadyActive
  | MigrationInProgress
  | Timeout
  | Network
  | BadRequesterFormat
deriving DecidableEq

/-- Symbolic model of a recoverable ECDSA signature
(`RequestSignature = parity_crypto::publickey::Signature` in `lib.rs`): a
signature produced by a key carries the signer's public key and the signed
message, which is exactly what ECDSA public-key recovery extracts from it. -/
structure RequestSignature where
  signerPub : Public
  signedMessage : ServerKeyId
deriving DecidableEq

/-- Model of the external `parity_crypto::publickey::recover`: recovery over
the message that was actually signed yields the signer's public key; recovery
over any other message fails in this symbolic model. -/
def recover (signature : RequestSignature) (message : ServerKeyId) : Except String Public :=
  if signature.signedMessage = message then Except.ok signature.signerPub
  else Except.error ("invalid signature")

/-- Public key of a secret key in the cyclic-group model. -/
def pubOf (secretKey : Nat) : Public := secretKey * genPoint

/-- Model of signing a message with a secret key, producing a recoverable
signature: the produced signature recovers to `pubOf secretKey`. -/
def signRequest (secretKey : Nat) (message : ServerKeyId) : RequestSignature :=
  { signerPub := pubOf secretKey, signedMessage := message }

/-- Requester identification data (`requester.rs`). -/
inductive Requester where
  | Signature (signature : RequestSignature)
  | Public (public : SecretStore.Public)
  | Address (address : SecretStore.Address)
deriving DecidableEq

/-- `Requester::public` from `requester.rs`: recover the public key from a
signature requester, return the key of a public requester, and fail for an
address requester. -/
def Requester.public : Requester → ServerKeyId → Except String SecretStore.Public
  | Requester.Signature s, server_key_id =>
    match recover s server_key_id with
    | Except.ok p => Except.ok p
    | Except.error e => Except.error ("bad signature: " ++ e)
  | Requester.Public p, _ => Except.ok p
  | Requester.Address _, _ => Except.error ("cannot recover public from address")

/-- `Requester::address` from `requester.rs`: resolve the requester's public
key and map it through `public_to_address`. -/
def Requester.address (r : Requester) (server_key_id : ServerKeyId) :
    Except String SecretStore.Address :=
  (r.public server_key_id).map (fun p => public_to_address p)

/-- Model of `std::collections::BTreeMap` with `Nat` keys: an entry list with
strictly increasing keys, which is the invariant the Rust type maintains. -/
structure BTreeMap (β : Type) where
  entries : List (Nat × β)
  sortedKeys : entries.Chain' (fun a b => a.1 < b.1)

/-- Versioned portion of document key share (`key_storage.rs`):
version hash, per-node id numbers and this node's secret share. -/
structure DocumentKeyShareVersion where
  hash : H256
  id_numbers : BTreeMap Secret
  secret_share : Secret

/-- Encrypted key share stored by key storage on a single key server
(`key_storage.rs`). -/
structure DocumentKeyShare where
  author : SecretStore.Address
  threshold : Nat
  public : SecretStore.Public
  common_point : Option SecretStore.Public
  encrypted_point : Option SecretStore.Public
  versions : List DocumentKeyShareVersion

/-- Modelled from the spec: in-memory state realizing the `KeyStorage` trait of
`key_storage.rs` (the trait has no implementation in `src/`): an association
list from server key id to this node's `DocumentKeyShare`. -/
abbrev KeyStorageState := List (ServerKeyId × DocumentKeyShare)

/-- `KeyStorage::get`: first entry stored under the given key id. -/
def ksGet (st : KeyStorageState) (key_id : ServerKeyId) : Option DocumentKeyShare :=
  (st.find? (fun e => e.1 == key_id)).map Prod.snd

/-- `KeyStorage::update`: replace the share stored under the given key id. -/
def ksUpdate (st : KeyStorageState) (key_id : ServerKeyId) (share : DocumentKeyShare) :
    KeyStorageState :=
  st.map (fun e => if e.1 == key_id then (key_id, share) else e)

/-- `KeyStorage::insert`: record a share under a fresh key id. -/
def ksInsert (st : KeyStorageState) (key_id : ServerKeyId) (share : DocumentKeyShare) :
    KeyStorageState :=
  (key_id, share) :: st

/-- Server key generation artifacts (`key_server.rs`): public portion of the
generated server key. -/
structure ServerKeyGenerationArtifacts where
  key : SecretStore.Public

/-- Server key retrieval artifacts (`key_server.rs`): public portion of the
retrieved server key and the threshold it was generated with. -/
structure ServerKeyRetrievalArtifacts where
  key : SecretStore.Public
  threshold : Nat
deriving DecidableEq

/-- Document key generation artifacts (`key_server.rs`).  The source field
doc reads: "Generated document key. UNENCRYPTED." — the field holds the plain
document key point, not a ciphertext. -/
structure DocumentKeyGenerationArtifacts where
  document_key : SecretStore.Public
deriving DecidableEq

/-- Document key retrieval artifacts (`key_server.rs`): "Restored document
key. UNENCRYPTED." -/
structure DocumentKeyRetrievalArtifacts where
  document_key : SecretStore.Public

/-- Document key common retrieval artifacts (`key_server.rs`): the shared
common point and the threshold of the associated server key. -/
structure DocumentKeyCommonRetrievalArtifacts where
  common_point : SecretStore.Public
  threshold : Nat
deriving DecidableEq

/-- Schnorr signing artifacts (`key_server.rs`): the plain `c` and `s`
portions of the Schnorr signature, as `H256` values. -/
structure SchnorrSigningArtifacts where
  signature_c : H256
  signature_s : H256
deriving DecidableEq

/-- ECDSA signing artifacts (`key_server.rs`): the plain ECDSA signature
(`parity_crypto::publickey::Signature`), modelled as `Nat`. -/
structure EcdsaSigningArtifacts where
  signature : Nat
deriving DecidableEq

/-- Model of the external ACL collaborator: the predicate
`allowed(requester_address, key_id)` consulted before share combination. -/
abbrev AclCheck := SecretStore.Address → ServerKeyId → Bool

/-- Modelled from the spec: `ServerKeyGenerator::generate_key`, whose session
implementation is not in `src/`.  The distributed key-generation session is
collapsed to its functional outcome: `x` stands for the joint private scalar
(never materialized on one node) and `ver` for the key-share version the DKG
round produces.  Fails with `DuplicateKey` when the key id is taken, with
`InsufficientNodes` when fewer than `threshold + 1` participants exist. -/
def generate_key (st : KeyStorageState) (key_id : ServerKeyId) (author : Requester)
    (threshold : Nat) (x : Nat) (ver : DocumentKeyShareVersion) :
    Except Error (KeyStorageState × ServerKeyGenerationArtifacts) :=
  if (ksGet st key_id).isSome then Except.error Error.DuplicateKey
  else
    match author.address key_id with
    | Except.error _ => Except.error Error.InvalidSignature
    | Except.ok addr =>
      if ver.id_numbers.entries.length < threshold + 1 then
        Except.error Error.InsufficientNodes
      else
        Except.ok
          (ksInsert st key_id
            { author := addr, threshold := threshold, public := x * genPoint,
              common_point := none, encrypted_point := none, versions := [ver] },
           { key := x * genPoint })

/-- Modelled from the spec: `DocumentKeyServer::store_document_key`, whose
session implementation is not in `src/`.  Records the externally veiled
`(common_point, encrypted_point)` pair against the existing server key share:
fails with `KeyNotFound` when no key exists, `AccessDenied` when the resolved
author address differs from the stored author, `DocumentKeyAlreadySet` when
values already recorded differ from the supplied ones (idempotent when they
are identical), and `InvalidSignature` when the author credential does not
resolve. -/
def store_document_key (st : KeyStorageState) (key_id : ServerKeyId) (author : Requester)
    (common_point encrypted_document_key : SecretStore.Public) :
    Except Error KeyStorageState :=
  match ksGet st key_id with
  | none => Except.error Error.KeyNotFound
  | some share =>
    match author.address key_id with
    | Except.error _ => Except.error Error.InvalidSignature
    | Except.ok addr =>
      if addr ≠ share.author then Except.error Error.AccessDenied
      else
        match share.common_point, share.encrypted_point with
        | some cp, some ep =>
          if cp = common_point ∧ ep = encrypted_document_key then Except.ok st
          else Except.error Error.DocumentKeyAlreadySet
        | _, _ =>
          Except.ok
            (ksUpdate st key_id
              { share with
                common_point := some common_point,
                encrypted_point := some encrypted_document_key })

/-- Modelled from the spec: `DocumentKeyServer::generate_document_key`, whose
session implementation is not in `src/`.  The convenience composition: run
`generate_key`, draw scalar `k` and document key point `m` (model parameters
for the in-cluster randomness), veil `m` as
`common_point = k·G`, `encrypted_point = m + k·y`, store the pair, and return
the document key in `DocumentKeyGenerationArtifacts` — whose source doc
states the returned key is UNENCRYPTED, so the plain `m` is returned. -/
def generate_document_key (st : KeyStorageState) (key_id : ServerKeyId) (author : Requester)
    (threshold : Nat) (x : Nat) (ver : DocumentKeyShareVersion) (k m : Nat) :
    Except Error (KeyStorageState × DocumentKeyGenerationArtifacts) :=
  match generate_key st key_id author threshold x ver with
  | Except.error e => Except.error e
  | Except.ok (st1, art) =>
    match store_document_key st1 key_id author (k * genPoint) (m + k * art.key) with
    | Except.error e => Except.error e
    | Except.ok st2 => Except.ok (st2, { document_key := m })

/-- Modelled from the spec: `DocumentKeyServer::restore_document_key_common`,
whose session implementation is not in `src/`.  Returns the stored
`(common_point, threshold)` pair without touching shares, after the same
access check as full restoration: the requester must resolve and pass the ACL
predicate. -/
def restore_document_key_common (acl : AclCheck) (st : KeyStorageState)
    (key_id : ServerKeyId) (requester : Requester) :
    Except Error DocumentKeyCommonRetrievalArtifacts :=
  match ksGet st key_id with
  | none => Except.error Error.KeyNotFound
  | some share =>
    match requester.address key_id with
    | Except.error _ => Except.error Error.InvalidSignature
    | Except.ok addr =>
      if acl addr key_id then
        match share.common_point with
        | some cp => Except.ok { common_point := cp, threshold := share.threshold }
        | none => Except.error Error.KeyNotFound
      else Except.error Error.AccessDenied

/-- Modelled from the spec: `ServerKeyGenerator::restore_key_public`, whose
session implementation is not in `src/`.  Returns the stored public key and
threshold; when an author credential is present it is resolved and checked
against the stored author (`AccessDenied` on mismatch); when it is `none` the
author check is omitted; fails with `KeyNotFound` when no key exists. -/
def restore_key_public (st : KeyStorageState) (key_id : ServerKeyId)
    (author : Option Requester) : Except Error ServerKeyRetrievalArtifacts :=
  match ksGet st key_id with
  | none => Except.error Error.KeyNotFound
  | some share =>
    match author with
    | none => Except.ok { key := share.public, threshold := share.threshold }
    | some a =>
      match a.address key_id with
      | Except.error _ => Except.error Error.InvalidSignature
      | Except.ok addr =>
        if addr = share.author then
          Except.ok { key := share.public, threshold := share.threshold }
        else Except.error Error.AccessDenied

/-- Model of the challenge hash `c = H(R, y, message)` of Schnorr signing: the
hash function is a parameter of the spec, modelled by the injective pairing
function on `Nat`. -/
def schnorrHash (bigR y : SecretStore.Public) (message : H256) : H256 :=
  Nat.pair (Nat.pair bigR y) message

/-- Modelled from the spec: `MessageSigner::sign_message_schnorr`, whose
session implementation is not in `src/`.  The distributed rounds are collapsed
to their functional outcome: `k` is the jointly generated ephemeral scalar and
`x` the joint private scalar (model parameters, never held by one node).
After the key lookup and the requester's ACL authorization, the session
computes `R = k·G`, `c = H(R, y, message)` and the summed response `s`, and
returns the plain `(c, s)` pair in `SchnorrSigningArtifacts`. -/
def sign_message_schnorr (acl : AclCheck) (st : KeyStorageState) (key_id : ServerKeyId)
    (requester : Requester) (message : H256) (k x : Nat) :
    Except Error SchnorrSigningArtifacts :=
  match ksGet st key_id with
  | none => Except.error Error.KeyNotFound
  | some share =>
    match requester.address key_id with
    | Except.error _ => Except.error Error.InvalidSignature
    | Except.ok addr =>
      if acl addr key_id then
        Except.ok
          { signature_c := schnorrHash (k * genPoint) share.public message,
            signature_s := k + schnorrHash (k * genPoint) share.public message * x }
      else Except.error Error.AccessDenied

/-- Modelled from the spec: `MessageSigner::sign_message_ecdsa`, whose session
implementation is not in `src/`.  Identical structure to Schnorr signing, but
the session rejects with `UnsupportedThreshold` unless the key's threshold `t`
satisfies `t ≤ n/2`, where `n` is the number of nodes holding shares of the
latest key version (over naturals, `t ≤ n/2` is `n ≥ 2·t`).  The ECDSA
algebra is collapsed symbolically into a plain signature value. -/
def sign_message_ecdsa (acl : AclCheck) (st : KeyStorageState) (key_id : ServerKeyId)
    (signature : Requester) (message : H256) (k x : Nat) :
    Except Error EcdsaSigningArtifacts :=
  match ksGet st key_id with
  | none => Except.error Error.KeyNotFound
  | some share =>
    match share.versions.getLast? with
    | none => Except.error Error.KeyNotFound
    | some ver =>
      if ver.id_numbers.entries.length < 2 * share.threshold then
        Except.error Error.UnsupportedThreshold
      else
        match signature.address key_id with
        | Except.error _ => Except.error Error.InvalidSignature
        | Except.ok addr =>
          if acl addr key_id then
            Except.ok { signature := Nat.pair (k * genPoint) (k + message * x) }
          else Except.error Error.AccessDenied

/-- Key server set migration data (`key_server_set.rs`). -/
structure KeyServerSetMigration where
  id : MigrationId
  set : BTreeMap SocketAddr
  master : KeyServerPublic
  is_confirmed : Bool

/-- Key server set state (`key_server_set.rs`). -/
structure KeyServerSetSnapshot where
  current_set : BTreeMap SocketAddr
  new_set : BTreeMap SocketAddr
  migration : Option KeyServerSetMigration

/-- In-memory key server set implementation (`key_server_set.rs`). -/
structure InMemoryKeyServerSet where
  is_isolated : Bool
  nodes : BTreeMap SocketAddr

/-- `InMemoryKeyServerSet::new`. -/
def InMemoryKeyServerSet.new (is_isolated : Bool) (nodes : BTreeMap SocketAddr) :
    InMemoryKeyServerSet :=
  { is_isolated := is_isolated, nodes := nodes }

/-- `KeyServerSet::snapshot` for `InMemoryKeyServerSet`: current and new sets
are both the constructed node map, the migration field keeps its `Default`
value (`None`). -/
def InMemoryKeyServerSet.snapshot (s : InMemoryKeyServerSet) : KeyServerSetSnapshot :=
  { current_set := s.nodes, new_set := s.nodes, migration := none }

/-- `KeyServerSet::start_migration` for `InMemoryKeyServerSet`: the body is
"nothing to do here", so the state is returned unchanged. -/
def InMemoryKeyServerSet.start_migration (s : InMemoryKeyServerSet)
    (_migration_id : MigrationId) : InMemoryKeyServerSet :=
  s

/-- `KeyServerSet::confirm_migration` for `InMemoryKeyServerSet`: the body is
"nothing to do here", so the state is returned unchanged. -/
def InMemoryKeyServerSet.confirm_migration (s : InMemoryKeyServerSet)
    (_migration_id : MigrationId) : InMemoryKeyServerSet :=
  s

/-- Concrete two-node key share version used by the witnesses. -/
def c1Version : DocumentKeyShareVersion :=
  { hash := 0,
    id_numbers := { entries := [(1, 1), (2, 2)], sortedKeys := by simp [List.chain'_cons] },
    secret_share := 5 }

/-- Concrete share as stored after a document key with `common_point = 4` and
`encrypted_point = 23` has been recorded against a `(t = 1)` server key with
public point `3` authored by address `9`. -/
def c1StoredShare : DocumentKeyShare :=
  { author := 9, threshold := 1, public := 3,
    common_point := some 4, encrypted_point := some 23,
    versions := [c1Version] }

/-- The same share before any document key has been stored. -/
def c6Share : DocumentKeyShare :=
  { author := 9, threshold := 1, public := 3,
    common_point := none, encrypted_point := none,
    versions := [c1Version] }

/-- Concrete three-node key share version used by the ECDSA witness. -/
def c2Version : DocumentKeyShareVersion :=
  { hash := 0,
    id_numbers := { entries := [(1, 1), (2, 2), (3, 3)], sortedKeys := by simp [List.chain'_cons] },
    secret_share := 5 }

/-- Concrete share of a server key generated with threshold `2` over the
`3` nodes of `c2Version`, so that `threshold > n/2`. -/
def c2Share : DocumentKeyShare :=
  { author := 9, threshold := 2, public := 6,
    common_point := none, encrypted_point := none,
    versions := [c2Version] }

/-- An ACL that allows every requester, used by the witnesses. -/
def allowAllAcl : AclCheck := fun _ _ => true

/-- Concrete run of `generate_document_key` on an empty storage: the caller is
the public-key requester `9`, the joint private scalar is `3`, the drawn
veiling scalar is `4`, and the drawn plaintext document key point `M` is `11`. -/
def c1Run : Except Error (KeyStorageState × DocumentKeyGenerationArtifacts) :=
  generate_document_key [] 100 (Requester.Public 9) 1 3 c1Version 4 11

/-- The C1 claim evaluated at the concrete input of `c1Run`: the artifact
handed back to the caller is encrypted under the caller's public key and so
never carries the plaintext document key `M = 11` in the clear. -/
def c1ClaimAtExample : Prop :=
  ∀ r, c1Run = Except.ok r → r.2.document_key ≠ 11

/-- The pair actually produced by `c1Run`. -/
def c1WitnessPair : KeyStorageState × DocumentKeyGenerationArtifacts :=
  ([(100, c1StoredShare)], { document_key := 11 })

/-- C3: for every signature produced by a key over a key identifier,
`Requester::Signature(s).address(key_id)` returns the same address as
`Requester::Public(p).address(key_id)` where `p` is the signer's public key —
and both resolve to `public_to_address p`. -/
theorem signature_requester_same_address (sk : Nat) (key_id : ServerKeyId) :
    Requester.address (Requester.Signature (signRequest sk key_id)) key_id =
      Requester.address (Requester.Public (pubOf sk)) key_id ∧
    Requester.address (Requester.Signature (signRequest sk key_id)) key_id =
      Except.ok (public_to_address (pubOf sk)) := by
  constructor <;>
    simp [Requester.address, Requester.public, recover, signRequest, Except.map]

/-- C4: for every address `a` and every key identifier, an address-only
requester can never yield a public key: `Requester::Address(a).public(key_id)`
returns an error. -/
theorem address_requester_no_public (a : SecretStore.Address) (key_id : ServerKeyId) :
    Requester.public (Requester.Address a) key_id =
      Except.error ("cannot recover public from address") :=
  rfl

/-- C5 evaluation at the failing input: `Requester::Address(66).address(1)`
does not resolve to the held address `66`; it fails, because `address()`
unconditionally delegates to `public()`, which errors for the address
variant. -/
theorem address_requester_address_fails :
    Requester.address (Requester.Address 66) 1 =
      Except.error ("cannot recover public from address") :=
  rfl

/-- C10: an `InMemoryKeyServerSet` built by `new(is_isolated, nodes)` is
inert: `start_migration` and `confirm_migration` leave the state unchanged,
`snapshot()` always returns `nodes` as both current and new set with no
migration, and `is_isolated()` returns the constructed flag. -/
theorem in_memory_key_server_set_frame (is_iso : Bool) (nodes : BTreeMap SocketAddr)
    (mid mid' : MigrationId) :
    (InMemoryKeyServerSet.new is_iso nodes).start_migration mid =
      InMemoryKeyServerSet.new is_iso nodes ∧
    (InMemoryKeyServerSet.new is_iso nodes).confirm_migration mid' =
      InMemoryKeyServerSet.new is_iso nodes ∧
    (InMemoryKeyServerSet.new is_iso nodes).snapshot =
      { current_set := nodes, new_set := nodes, migration := none } ∧
    (InMemoryKeyServerSet.new is_iso nodes).is_isolated = is_iso :=
  ⟨rfl, rfl, rfl, rfl⟩

/-- C9: in every stored `DocumentKeyShare`, every version's id-number mapping
has exactly one entry per participating node: a node identity appearing in the
mapping appears exactly once. -/
theorem id_numbers_one_entry_per_node
    (share : DocumentKeyShare) (ver : DocumentKeyShareVersion) (node : KeyServerId)
    (hver : ver ∈ share.versions)
    (hnode : node ∈ ver.id_numbers.entries.map Prod.fst) :
    (ver.id_numbers.entries.map Prod.fst).count node = 1 := by
  have hchain : (ver.id_numbers.entries.map Prod.fst).Chain' (fun a b => a < b) :=
    (List.chain'_map Prod.fst).mpr ver.id_numbers.sortedKeys
  have hpair : (ver.id_numbers.entries.map Prod.fst).Pairwise (fun a b => a < b) :=
    List.chain'_iff_pairwise.mp hchain
  have hnodup : (ver.id_numbers.entries.map Prod.fst).Nodup :=
    hpair.imp (fun h => Nat.ne_of_lt h)
  exact List.count_eq_one_of_mem hnodup hnode

/-- Witness for C9 at the concrete share `c1StoredShare` and node `1`. -/
theorem id_numbers_one_entry_per_node_witness :
    (c1Version.id_numbers.entries.map Prod.fst).count 1 = 1 :=
  id_numbers_one_entry_per_node c1StoredShare c1Version 1
    (show c1Version ∈ [c1Version] from List.mem_singleton_self c1Version)
    (by decide)

/-- C1 counterexample: at the concrete input of `c1Run`, the artifact returned
by `generate_document_key` carries exactly the plaintext document key
`M = 11`, so the claim that the returned document key is encrypted under the
caller's public key and never in the clear is false. -/
theorem generate_document_key_plaintext_counterexample : ¬ c1ClaimAtExample :=
  fun h => h c1WitnessPair rfl rfl

/-- Updating the share stored under a key id that is present makes `ksGet`
return the new share. -/
theorem ksGet_ksUpdate_self (st : KeyStorageState) (key_id : ServerKeyId)
    (share : DocumentKeyShare) (h : (ksGet st key_id).isSome = true) :
    ksGet (ksUpdate st key_id share) key_id = some share := by
  induction st with
  | nil => simp [ksGet] at h
  | cons e t ih =>
    by_cases he : (e.1 == key_id) = true
    · unfold ksGet ksUpdate
      rw [List.map_cons, if_pos he, List.find?_cons_of_pos _ (by simp)]
      rfl
    · unfold ksGet at h
      unfold ksGet ksUpdate
      rw [List.map_cons, if_neg he, List.find?_cons_of_neg _ (by simpa using he)]
      rw [List.find?_cons_of_neg _ (by simpa using he)] at h
      exact ih h

/-- Shape of a successful `store_document_key` call: the key id held a share
whose author matches the resolved author credential, and afterwards the state
holds a share with the same author, threshold and public key whose common and
encrypted points are exactly the supplied ones. -/
theorem store_document_key_ok_shape (st st' : KeyStorageState) (key_id : ServerKeyId)
    (author : Requester) (cp ep : SecretStore.Public)
    (h : store_document_key st key_id author cp ep = Except.ok st') :
    ∃ share addr share',
      ksGet st key_id = some share ∧
      author.address key_id = Except.ok addr ∧
      addr = share.author ∧
      ksGet st' key_id = some share' ∧
      share'.author = share.author ∧
      share'.threshold = share.threshold ∧
      share'.public = share.public ∧
      share'.common_point = some cp ∧
      share'.encrypted_point = some ep := by
  unfold store_document_key at h
  split at h
  · exact Except.noConfusion h
  next share hget =>
    split at h
    · exact Except.noConfusion h
    next addr haddr =>
      split at h
      · exact Except.noConfusion h
      next hau =>
        push_neg at hau
        split at h
        next cpv epv hcpv hepv =>
          split at h
          next heq =>
            cases h
            refine ⟨share, addr, share, hget, haddr, hau, hget, rfl, rfl, rfl, ?_, ?_⟩
            · rw [hcpv, heq.1]
            · rw [hepv, heq.2]
          next _ => exact Except.noConfusion h
        next _ _ =>
          cases h
          exact ⟨share, addr,
            { share with common_point := some cp, encrypted_point := some ep },
            hget, haddr, hau,
            ksGet_ksUpdate_self st key_id _ (by rw [hget]; rfl),
            rfl, rfl, rfl, rfl, rfl⟩

/-- C6: `store_document_key` is idempotent: after a successful call, repeating
it with identical arguments succeeds (leaving the state unchanged), while a
second call whose `(common_point, encrypted_document_key)` differ from the
recorded values fails with `DocumentKeyAlreadySet`, the recorded values
staying exactly those of the first call. -/
theorem store_document_key_idempotent (st st' : KeyStorageState) (key_id : ServerKeyId)
    (author : Requester) (cp ep cp' ep' : SecretStore.Public)
    (hfirst : store_document_key st key_id author cp ep = Except.ok st') :
    store_document_key st' key_id author cp ep = Except.ok st' ∧
    ((cp', ep') ≠ (cp, ep) →
      store_document_key st' key_id author cp' ep' =
        Except.error Error.DocumentKeyAlreadySet) ∧
    ∃ stored, ksGet st' key_id = some stored ∧
      stored.common_point = some cp ∧ stored.encrypted_point = some ep := by
  obtain ⟨share, addr, share', hget, haddr, hau, hget', hau', -, -, hcp', hep'⟩ :=
    store_document_key_ok_shape st st' key_id author cp ep hfirst
  have haddr2 : addr = share'.author := hau.trans hau'.symm
  refine ⟨?_, ?_, share', hget', hcp', hep'⟩
  · simp [store_document_key, hget', haddr, hcp', hep', haddr2]
  · intro hdiff
    have hne : ¬ (cp = cp' ∧ ep = ep') := by
      intro hcc
      exact hdiff (by rw [← hcc.1, ← hcc.2])
    simp [store_document_key, hget', haddr, hcp', hep', haddr2, hne]

/-- C7: after a successful `store_document_key` of `(common_point,
encrypted_point)` against an existing server key with threshold `t`, a
subsequent `restore_document_key_common` for the same key returns exactly that
common point together with `t`. -/
theorem store_then_restore_common (acl : AclCheck) (st st' : KeyStorageState)
    (key_id : ServerKeyId) (author requester : Requester) (cp ep : SecretStore.Public)
    (share : DocumentKeyShare) (addr : SecretStore.Address)
    (hget : ksGet st key_id = some share)
    (hstore : store_document_key st key_id author cp ep = Except.ok st')
    (haddr : requester.address key_id = Except.ok addr)
    (hacl : acl addr key_id = true) :
    restore_document_key_common acl st' key_id requester =
      Except.ok { common_point := cp, threshold := share.threshold } := by
  obtain ⟨share0, addr0, share', hget0, -, -, hget', -, hthr, -, hcp', -⟩ :=
    store_document_key_ok_shape st st' key_id author cp ep hstore
  have hs : share0 = share := Option.some.inj (hget0.symm.trans hget)
  subst hs
  simp [restore_document_key_common, hget', haddr, hacl, hcp', hthr]

/-- C8: `restore_key_public(key_id, author)` returns the stored public key and
threshold; with an author credential present, on a resolved-address match it
succeeds and on a mismatch it fails with `AccessDenied`; with `author = none`
the author check is omitted; with no key stored under `key_id` it fails with
`KeyNotFound`. -/
theorem restore_key_public_spec (st : KeyStorageState) (key_id : ServerKeyId)
    (share : DocumentKeyShare) (hget : ksGet st key_id = some share) :
    restore_key_public st key_id none =
      Except.ok { key := share.public, threshold := share.threshold } ∧
    (∀ a addr, Requester.address a key_id = Except.ok addr → addr = share.author →
      restore_key_public st key_id (some a) =
        Except.ok { key := share.public, threshold := share.threshold }) ∧
    (∀ a addr, Requester.address a key_id = Except.ok addr → addr ≠ share.author →
      restore_key_public st key_id (some a) = Except.error Error.AccessDenied) ∧
    ∀ (st2 : KeyStorageState) (author : Option Requester), ksGet st2 key_id = none →
      restore_key_public st2 key_id author = Except.error Error.KeyNotFound := by
  refine ⟨?_, ?_, ?_, ?_⟩
  · simp [restore_key_public, hget]
  · intro a addr ha heq
    simp [restore_key_public, hget, ha, heq]
  · intro a addr ha hne
    simp [restore_key_public, hget, ha, hne]
  · intro st2 author hnone
    simp [restore_key_public, hnone]

/-- C2: for a server key generated with threshold `t` over `n` nodes where
`t > n/2` (over naturals: `2·t > n`), an ECDSA signing request against that
key fails with `UnsupportedThreshold`, while a Schnorr signing request by the
same authorized requester against the same key succeeds. -/
theorem ecdsa_unsupported_threshold_schnorr_succeeds
    (acl : AclCheck) (st : KeyStorageState) (key_id : ServerKeyId)
    (requester : Requester) (message : H256) (k x : Nat)
    (share : DocumentKeyShare) (ver : DocumentKeyShareVersion) (addr : SecretStore.Address)
    (hget : ksGet st key_id = some share)
    (hver : share.versions.getLast? = some ver)
    (hthr : 2 * share.threshold > ver.id_numbers.entries.length)
    (haddr : requester.address key_id = Except.ok addr)
    (hacl : acl addr key_id = true) :
    sign_message_ecdsa acl st key_id requester message k x =
      Except.error Error.UnsupportedThreshold ∧
    sign_message_schnorr acl st key_id requester message k x =
      Except.ok { signature_c := schnorrHash (k * genPoint) share.public message,
                  signature_s := k + schnorrHash (k * genPoint) share.public message * x } := by
  constructor
  · simp [sign_message_ecdsa, hget, hver, hthr]
  · simp [sign_message_schnorr, hget, haddr, hacl]

/-- C1 (amended): every secret-bearing artifact is handed back to the caller
unencrypted: `generate_document_key` returns the unveiled document key `M`
itself in the clear (`DocumentKeyGenerationArtifacts.document_key` is the
UNENCRYPTED key), and `sign_message_schnorr` / `sign_message_ecdsa` return the
plain signature values, with no encryption under the caller's public key. -/
theorem artifacts_returned_unencrypted
    (st : KeyStorageState) (key_id : ServerKeyId) (author : Requester)
    (threshold x : Nat) (ver : DocumentKeyShareVersion) (k m : Nat)
    (p : KeyStorageState × DocumentKeyGenerationArtifacts)
    (acl : AclCheck) (st2 : KeyStorageState) (requester : Requester) (message : H256)
    (addr : SecretStore.Address) (share : DocumentKeyShare)
    (ver2 : DocumentKeyShareVersion) (k2 x2 : Nat)
    (hrun : generate_document_key st key_id author threshold x ver k m = Except.ok p)
    (hget : ksGet st2 key_id = some share)
    (hver : share.versions.getLast? = some ver2)
    (hthr : 2 * share.threshold ≤ ver2.id_numbers.entries.length)
    (haddr : requester.address key_id = Except.ok addr)
    (hacl : acl addr key_id = true) :
    p.2.document_key = m ∧
    sign_message_schnorr acl st2 key_id requester message k2 x2 =
      Except.ok { signature_c := schnorrHash (k2 * genPoint) share.public message,
                  signature_s := k2 + schnorrHash (k2 * genPoint) share.public message * x2 } ∧
    sign_message_ecdsa acl st2 key_id requester message k2 x2 =
      Except.ok { signature := Nat.pair (k2 * genPoint) (k2 + message * x2) } := by
  refine ⟨?_, ?_, ?_⟩
  · unfold generate_document_key at hrun
    split at hrun
    · exact Except.noConfusion hrun
    · split at hrun
      · exact Except.noConfusion hrun
      · cases hrun
        rfl
  · simp [sign_message_schnorr, hget, haddr, hacl]
  · simp [sign_message_ecdsa, hget, hver, Nat.not_lt.mpr hthr, haddr, hacl]

/-- Witness for C6 at a concrete storage holding one key authored by `9`. -/
theorem store_document_key_idempotent_witness :
    store_document_key [(100, c1StoredShare)] 100 (Requester.Public 9) 4 23 =
      Except.ok [(100, c1StoredShare)] ∧
    store_document_key [(100, c1StoredShare)] 100 (Requester.Public 9) 5 23 =
      Except.error Error.DocumentKeyAlreadySet := by
  obtain ⟨h1, h2, -⟩ :=
    store_document_key_idempotent [(100, c6Share)] [(100, c1StoredShare)] 100
      (Requester.Public 9) 4 23 5 23 rfl
  exact ⟨h1, h2 (by decide)⟩

/-- Witness for C7 at the same concrete storage. -/
theorem store_then_restore_common_witness :
    restore_document_key_common allowAllAcl [(100, c1StoredShare)] 100 (Requester.Public 9) =
      Except.ok { common_point := 4, threshold := 1 } :=
  store_then_restore_common allowAllAcl [(100, c6Share)] [(100, c1StoredShare)] 100
    (Requester.Public 9) (Requester.Public 9) 4 23 c6Share 9 rfl rfl rfl rfl

/-- Witness for C8 at the same concrete storage: no-author retrieval, matching
author, mismatching author, and missing key. -/
theorem restore_key_public_spec_witness :
    restore_key_public [(100, c1StoredShare)] 100 none =
      Except.ok { key := 3, threshold := 1 } ∧
    restore_key_public [(100, c1StoredShare)] 100 (some (Requester.Public 9)) =
      Except.ok { key := 3, threshold := 1 } ∧
    restore_key_public [(100, c1StoredShare)] 100 (some (Requester.Public 8)) =
      Except.error Error.AccessDenied ∧
    restore_key_public [] 100 none = Except.error Error.KeyNotFound := by
  obtain ⟨h1, h2, h3, h4⟩ :=
    restore_key_public_spec [(100, c1StoredShare)] 100 c1StoredShare rfl
  exact ⟨h1, h2 (Requester.Public 9) 9 rfl rfl, h3 (Requester.Public 8) 8 rfl (by decide),
    h4 [] none rfl⟩

/-- Witness for C2 at a concrete key with threshold `2` held by `3` nodes. -/
theorem ecdsa_unsupported_threshold_schnorr_succeeds_witness :
    sign_message_ecdsa allowAllAcl [(100, c2Share)] 100 (Requester.Public 9) 7 2 3 =
      Except.error Error.UnsupportedThreshold ∧
    sign_message_schnorr allowAllAcl [(100, c2Share)] 100 (Requester.Public 9) 7 2 3 =
      Except.ok { signature_c := schnorrHash (2 * genPoint) c2Share.public 7,
                  signature_s := 2 + schnorrHash (2 * genPoint) c2Share.public 7 * 3 } :=
  ecdsa_unsupported_threshold_schnorr_succeeds allowAllAcl [(100, c2Share)] 100
    (Requester.Public 9) 7 2 3 c2Share c2Version 9 rfl rfl (by decide) rfl rfl

/-- Witness for the amended C1 at the concrete run `c1Run` and a concrete
Schnorr/ECDSA signing request against the stored key. -/
theorem artifacts_returned_unencrypted_witness :
    c1WitnessPair.2.document_key = 11 ∧
    sign_message_schnorr allowAllAcl [(100, c1StoredShare)] 100 (Requester.Public 9) 7 2 3 =
      Except.ok { signature_c := schnorrHash (2 * genPoint) c1StoredShare.public 7,
                  signature_s := 2 + schnorrHash (2 * genPoint) c1StoredShare.public 7 * 3 } ∧
    sign_message_ecdsa allowAllAcl [(100, c1StoredShare)] 100 (Requester.Public 9) 7 2 3 =
      Except.ok { signature := Nat.pair (2 * genPoint) (2 + 7 * 3) } :=
  artifacts_returned_unencrypted [] 100 (Requester.Public 9) 1 3 c1Version 4 11
    c1WitnessPair allowAllAcl [(100, c1StoredShare)] (Requester.Public 9) 7 9 c1StoredShare
    c1Version 2 3 rfl rfl rfl (by decide) rfl rfl

end SecretStore
